import Mathlib

/-!
Shallow embedding of `src/agent.py` — the NXTUTORS Lead Qualification &
Intelligence Agent (`LeadQualificationAgent`).

The Python module is a single stateless scoring function built from four
pure extractors (`_parse_budget`, `_determine_urgency`,
`_assess_subject_complexity`, `_compute_location_feasibility`) and one
aggregator (`qualify_lead`).  Each Lean definition below is a direct
transcription of the corresponding Python function; comments cite the
Python lines.

Modelling conventions:
  * Python `Optional[str]` becomes `Option String`; Python truthiness of a
    string (`if not s`) is `none` or the empty string.
  * Python `re` digit class `\d` is modelled as the ASCII digits
    (`Char.isDigit`) and `\s` as the ASCII whitespace characters; the
    source's behaviour on non-ASCII digit/whitespace code points is out of
    scope of the claims.
  * `str.lower` is modelled by `Char.toLower`, which agrees with Python on
    ASCII letters (all keywords compared by the source are ASCII).
  * Machine integers do not appear: Python `int` is unbounded, so scores
    are `Int` / `Nat`.
-/

namespace NxTutors

/-- Lowercase every character of a string, modelling Python `str.lower()`
on the ASCII fragment used by the source. -/
def strLower (s : String) : String := String.mk (s.data.map Char.toLower)

/-- Does `needle` occur as a contiguous run inside `hay`?  (Checked at
every start position; the empty needle always occurs.) -/
def occursIn (needle : List Char) : List Char → Bool
  | [] => needle.isEmpty
  | c :: rest => List.isPrefixOf needle (c :: rest) || occursIn needle rest

/-- Python `a in b` on strings — substring containment
(agent.py lines 101, 103). -/
def containsSub (needle hay : String) : Bool :=
  occursIn needle.data hay.data

/-- Python `keyword.lower() in sub.lower()` — case-insensitive substring
containment (agent.py lines 80, 84). -/
def containsCI (needle hay : String) : Bool :=
  containsSub (strLower needle) (strLower hay)

/-- Python `a or b` on two optional strings: the first operand when it is
truthy (present and nonempty), otherwise the second operand unchanged. -/
def pyOrOpt (a b : Option String) : Option String :=
  match a with
  | some s => if s = "" then b else some s
  | none => b

/-- Python `a or dflt` producing a plain string default. -/
def pyOrStr (a : Option String) (dflt : String) : String :=
  match a with
  | some s => if s = "" then dflt else s
  | none => dflt

/-- ASCII whitespace, modelling the regex class `\s` (agent.py lines 59–60)
on the ASCII range. -/
def isWs (c : Char) : Bool :=
  c = ' ' || c = '\t' || c = '\n' || c = '\x0d' || c = '\x0b' || c = '\x0c'

/-- Value of a run of ASCII digits, as Python `int` reads it. -/
def digitsToNat (ds : List Char) : Nat :=
  ds.foldl (fun acc c => acc * 10 + (c.toNat - 48)) 0

/-! ### `_parse_budget` (agent.py lines 26–52)

The regex `\d+(?:,\d{3})*` (line 37) is modelled by a left-to-right
scanner: at the first digit position a maximal digit run is taken (greedy
`\d+`; the next character is then not a digit, so no backtracking into
`(?:,\d{3})*` is possible), followed by as many groups of a comma plus
exactly three digits as fit (greedy `*`); `re.findall` then resumes after
the match. -/

/-- Consume the `(?:,\d{3})*` part: repeated groups of `,` followed by
exactly three digits.  Returns the consumed characters and the rest. -/
def groupTok : List Char → List Char × List Char
  | ',' :: a :: b :: c :: rest =>
    if a.isDigit && b.isDigit && c.isDigit then
      let (g, r) := groupTok rest
      (',' :: a :: b :: c :: g, r)
    else ([], ',' :: a :: b :: c :: rest)
  | l => ([], l)

/-- Fuelled scanner for `re.findall(r"\d+(?:,\d{3})*", s)`: each returned
string is one match, in order.  The fuel only has to dominate the length
of the input (each step consumes at least one character). -/
def findNumsF : Nat → List Char → List String
  | 0, _ => []
  | _ + 1, [] => []
  | fuel + 1, c :: rest =>
    if c.isDigit then
      let ds := (c :: rest).takeWhile Char.isDigit
      let r1 := (c :: rest).dropWhile Char.isDigit
      let (g, r2) := groupTok r1
      String.mk (ds ++ g) :: findNumsF fuel r2
    else findNumsF fuel rest

/-- All matches of `\d+(?:,\d{3})*` in the string (agent.py line 37). -/
def findNums (s : String) : List String := findNumsF s.data.length s.data

/-- Python `int(num.replace(",", ""))` (agent.py line 40). -/
def numVal (num : String) : Nat :=
  digitsToNat (num.data.filter (fun c => c ≠ ','))

/-- `LeadQualificationAgent._parse_budget` (agent.py lines 26–52).
Returns `(range_str, category)`. -/
def parse_budget (budget_str : Option String) : String × String :=
  match budget_str with
  | none => ("Unknown", "Unknown")
  | some s =>
    if s = "" then ("Unknown", "Unknown")  -- `if not budget_str` (line 33)
    else
      match findNums s with
      | [] => ("Unknown", "Unknown")       -- `if numbers` falls through (line 38, 52)
      | n :: ns =>
        -- `amounts = [int(num.replace(",", "")) for num in numbers]` (line 40);
        -- `low = min(amounts)`, `high = max(amounts)` (lines 41–42)
        let low := (ns.map numVal).foldl min (numVal n)
        let high := (ns.map numVal).foldl max (numVal n)
        let category :=
          if high ≤ 3000 then "Low"
          else if high ≤ 8000 then "Medium"
          else "High"
        let range_str :=
          if low ≠ high then s!"₹{low}–₹{high}" else s!"₹{low}"
        (range_str, category)

/-! ### `_determine_urgency` (agent.py lines 54–70)

`re.search(r"(\d+)\s*(?:hour|hours)", s, re.IGNORECASE)` is modelled by a
scan over every start position, leftmost first: a maximal digit run, then
whitespace, then the (case-insensitive) literal `hour`.  Matching the
alternative `hours` is never needed — the pattern ends right after the
alternation, so the branch `hour` succeeding ends the whole match. -/

/-- Case-insensitive check that `pat` (given lowercase) starts the list. -/
def startsWithCI : List Char → List Char → Bool
  | [], _ => true
  | _ :: _, [] => false
  | p :: ps, c :: cs => (Char.toLower c = p) && startsWithCI ps cs

/-- `re.search(r"(\d+)\s*(?:UNIT|UNITs)", s, re.IGNORECASE)`: the captured
number of the leftmost match, if any.  `unit` is the lowercase unit word. -/
def searchNumUnit (unit : List Char) : List Char → Option Nat
  | [] => none
  | c :: rest =>
    if c.isDigit then
      let ds := (c :: rest).takeWhile Char.isDigit
      let afterNum := (c :: rest).dropWhile Char.isDigit
      let afterWs := afterNum.dropWhile isWs
      if startsWithCI unit afterWs then some (digitsToNat ds)
      else searchNumUnit unit rest
    else searchNumUnit unit rest

/-- The unit word of the hours regex (agent.py line 60). -/
def hoursPat : List Char := ['h', 'o', 'u', 'r']

/-- The unit word of the days regex (agent.py line 59). -/
def daysPat : List Char := ['d', 'a', 'y']

/-- `LeadQualificationAgent._determine_urgency` (agent.py lines 54–70).
The hours match is tested first (line 61) and short-circuits the days
match; an unmatched or absent string falls through to `"Long‑Term"`. -/
def determine_urgency (urgency_str : Option String) : String :=
  match urgency_str with
  | none => "Long‑Term"
  | some s =>
    if s = "" then "Long‑Term"  -- `if not urgency_str` (line 56)
    else
      match searchNumUnit hoursPat s.data with
      | some hours => if hours ≤ 48 then "Immediate" else "Short‑Term"
      | none =>
        match searchNumUnit daysPat s.data with
        | some days =>
          if days ≤ 2 then "Immediate"
          else if days ≤ 7 then "Short‑Term"
          else "Long‑Term"
        | none => "Long‑Term"

/-! ### `_assess_subject_complexity` (agent.py lines 72–86) -/

/-- `high_complexity_keywords` (agent.py line 76).  The Python value is a
set; only membership is used, so a list is an adequate model. -/
def high_complexity_keywords : List String := ["JEE", "NEET", "IIT", "IB", "IGCSE"]

/-- `medium_complexity_keywords` (agent.py line 77). -/
def medium_complexity_keywords : List String := ["Math", "Physics", "Chemistry", "Biology"]

/-- `LeadQualificationAgent._assess_subject_complexity` (agent.py lines
72–86).  The nested `for`/`return` loops are equivalently `List.any`: the
result does not depend on which keyword fires. -/
def assess_subject_complexity (subjects : List String) : String :=
  if subjects.isEmpty then "Unknown"  -- `if not subjects` (line 74)
  else if subjects.any (fun sub => high_complexity_keywords.any (fun k => containsCI k sub)) then
    "High"
  else if subjects.any (fun sub => medium_complexity_keywords.any (fun k => containsCI k sub)) then
    "Medium"
  else "Low"

/-! ### `_compute_location_feasibility` (agent.py lines 88–105) -/

/-- `mode and mode.lower() == "online"` (agent.py line 98): the mode is
truthy (present and nonempty) and lowercases to `"online"`. -/
def modeIsOnline (mode : Option String) : Bool :=
  match mode with
  | some m => m ≠ "" && strLower m = "online"
  | none => false

/-- `LeadQualificationAgent._compute_location_feasibility` (agent.py lines
88–105).  Note the order: the absent-location test (line 96) precedes the
online-mode test (line 98). -/
def compute_location_feasibility (location : Option String) (mode : Option String) : Nat :=
  match location with
  | none => 50  -- `if not location` (line 96)
  | some loc =>
    if loc = "" then 50
    else if modeIsOnline mode then 100
    else
      let loc_lower := strLower loc
      if ["sector", "society", "block"].any (fun t => containsCI t loc_lower) then 80
      else if ["city", "town", "district"].any (fun t => containsCI t loc_lower) then 60
      else 50

/-! ### `qualify_lead` (agent.py lines 107–219) -/

/-- The dataclass fields of `LeadQualificationAgent` (agent.py lines
22–24): the three label thresholds, configurable at construction. -/
structure LeadQualificationAgent where
  high_intent_threshold : Int
  medium_intent_threshold : Int
  low_intent_threshold : Int
deriving DecidableEq, Repr

/-- The Python dataclass defaults: `80`, `60`, `40` (agent.py lines 22–24). -/
def defaultAgent : LeadQualificationAgent := ⟨80, 60, 40⟩

/-- The input mapping's recognised keys (agent.py lines 109–113, 119); every
field is optional, `none` modelling an absent key or Python `None`. -/
structure Lead where
  lead_id : Option String
  mode_preference : Option String
  mode : Option String
  subjects : Option (List String)
  budget : Option String
  budget_range : Option String
  urgency : Option String
  location : Option String
deriving DecidableEq, Repr

/-- A lead with every key absent. -/
def emptyLead : Lead := ⟨none, none, none, none, none, none, none, none⟩

/-- The structured result dict (agent.py lines 202–217). -/
structure Report where
  lead_id : String
  lead_quality_score : Int
  lead_quality_label : String
  intent_level : String
  urgency_level : String
  budget_range_inferred : String
  preferred_mode : String
  subject_complexity : String
  location_feasibility_score : Nat
  recommended_next_agent : String
  confidence_in_recommendation : Nat
  reasoning_summary : String
  memory_tags : List String
  human_attention_required : Bool
deriving DecidableEq, Repr

/-- Budget-category score adjustment and reasoning line
(agent.py lines 126–134), acting on the `(quality_score, reasoning_lines)`
accumulator. -/
def budgetAdjust (sr : Int × List String) (budget_category : String) : Int × List String :=
  if budget_category = "Low" then
    (sr.1 + 5, sr.2 ++ ["Low budget implies affordability; small boost."])
  else if budget_category = "Medium" then
    (sr.1 + 10, sr.2 ++ ["Medium budget suggests moderate affordability."])
  else if budget_category = "High" then
    (sr.1 + 20, sr.2 ++ ["High budget indicates strong ability to pay."])
  else sr

/-- Urgency score adjustment and reasoning line (agent.py lines 137–142). -/
def urgencyAdjust (sr : Int × List String) (urgency_level : String) : Int × List String :=
  if urgency_level = "Immediate" then
    (sr.1 + 20, sr.2 ++ ["Immediate urgency indicates high intent."])
  else if urgency_level = "Short‑Term" then
    (sr.1 + 10, sr.2 ++ ["Short‑term urgency indicates medium intent."])
  else sr

/-- Subject-complexity score adjustment and reasoning line
(agent.py lines 145–150). -/
def complexityAdjust (sr : Int × List String) (subject_complexity : String) : Int × List String :=
  if subject_complexity = "High" then
    (sr.1 + 15, sr.2 ++ ["High complexity subjects require specialized tutors."])
  else if subject_complexity = "Medium" then
    (sr.1 + 5, sr.2 ++ ["Medium complexity subjects are common but significant."])
  else sr

/-- Location-feasibility score adjustment and reasoning line
(agent.py lines 153–158): `if score >= 80 … elif score <= 60 …`. -/
def feasAdjust (sr : Int × List String) (location_feasibility_score : Nat) : Int × List String :=
  if location_feasibility_score ≥ 80 then
    (sr.1 + 10, sr.2 ++ ["Precise location makes home tutoring feasible."])
  else if location_feasibility_score ≤ 60 then
    (sr.1 - 5, sr.2 ++ ["Generic location lowers match confidence."])
  else sr

/-- `quality_score = max(0, min(100, quality_score))` (agent.py line 161). -/
def clampScore (q : Int) : Int := max 0 (min 100 q)

/-- The label/intent `if`/`elif` chain on the clamped score
(agent.py lines 164–175), returning `(lead_quality_label, intent_level)`. -/
def labelIntentOf (agent : LeadQualificationAgent) (quality_score : Int) : String × String :=
  if quality_score ≥ agent.high_intent_threshold then ("High", "High Intent")
  else if quality_score ≥ agent.medium_intent_threshold then ("Medium", "Medium Intent")
  else if quality_score ≥ agent.low_intent_threshold then ("Low", "Low Intent")
  else ("Invalid", "Low Intent")

/-- Routing decision from label and urgency (agent.py lines 178–188). -/
def recommendedAgentOf (lead_quality_label urgency_level : String) : String :=
  if lead_quality_label = "High" then
    if urgency_level = "Immediate" then "Tutor Matching Agent" else "Sales Closure Agent"
  else if lead_quality_label = "Medium" then "Academic Counselor Agent"
  else if lead_quality_label = "Low" then "WhatsApp Nurture Agent"
  else "Archive / Ignore Agent"

/-- `round(abs(quality_score - 50) / 50 * 100)` (agent.py line 191).  For an
integer score the quotient times 100 is the exact even integer
`2 * |score - 50|`, so Python's float round returns exactly that. -/
def confidenceOf (quality_score : Int) : Nat := 2 * (quality_score - 50).natAbs

/-- `intent_level.lower().replace(' ', '-')` (agent.py line 201): the
replacement of a single-character substring is a character map. -/
def replaceSpaceDash (s : String) : String :=
  String.mk (s.data.map (fun c => if c = ' ' then '-' else c))

/-- `LeadQualificationAgent.qualify_lead` (agent.py lines 107–219). -/
def qualify_lead (agent : LeadQualificationAgent) (lead : Lead) : Report :=
  let lead_id := pyOrStr lead.lead_id ""                                -- line 109
  let mode := pyOrStr (pyOrOpt lead.mode_preference lead.mode) "Unknown"  -- line 110
  let subjects := (lead.subjects.getD [])                               -- line 111 (`or []`)
  let budget := pyOrOpt lead.budget lead.budget_range                   -- line 112
  let urgency := lead.urgency                                           -- line 113
  -- `budget_range, budget_category = self._parse_budget(budget)` (line 116)
  let pb := parse_budget budget
  let budget_range := pb.1
  let budget_category := pb.2
  let urgency_level := determine_urgency urgency                        -- line 117
  let subject_complexity := assess_subject_complexity subjects          -- line 118
  let location_feasibility_score :=
    compute_location_feasibility lead.location (some mode)              -- line 119
  -- base score 50, empty reasoning log (lines 122–123), then the four
  -- adjustment blocks in order (lines 126–158)
  let sr := feasAdjust
              (complexityAdjust
                (urgencyAdjust
                  (budgetAdjust (50, []) budget_category)
                  urgency_level)
                subject_complexity)
              location_feasibility_score
  let quality_score := clampScore sr.1                                  -- line 161
  let li := labelIntentOf agent quality_score                           -- lines 164–175
  let lead_quality_label := li.1
  let intent_level := li.2
  let recommended_agent := recommendedAgentOf lead_quality_label urgency_level
  let confidence_in_recommendation := confidenceOf quality_score        -- line 191
  let joined := String.intercalate "; " sr.2                            -- line 194
  let reasoning_summary :=
    if joined = "" then "Lead evaluated with default heuristics." else joined
  let memory_tags :=                                                    -- lines 197–201
    [ "budget:" ++ strLower budget_category
    , "urgency:" ++ strLower urgency_level
    , "complexity:" ++ strLower subject_complexity
    , "intent:" ++ replaceSpaceDash (strLower intent_level) ]
  { lead_id := lead_id
    lead_quality_score := quality_score
    lead_quality_label := lead_quality_label
    intent_level := intent_level
    urgency_level := urgency_level
    budget_range_inferred := budget_range
    preferred_mode := mode
    subject_complexity := subject_complexity
    location_feasibility_score := location_feasibility_score
    recommended_next_agent := recommended_agent
    confidence_in_recommendation := confidence_in_recommendation
    reasoning_summary := reasoning_summary
    memory_tags := memory_tags
    human_attention_required :=                                         -- line 216
      if lead_quality_label = "High" || lead_quality_label = "Medium" then false else true }

/-- The end-to-end scenario input of spec §8: `{lead_id:"L1",
budget:"₹10000", urgency:"within 2 days", subjects:["JEE"],
location:"Sector 5", mode:"offline"}`. -/
def leadL1 : Lead :=
  ⟨some "L1", none, some "offline", some ["JEE"], some "₹10000", none,
   some "within 2 days", some "Sector 5"⟩

/-!
## Bridging lemmas

`qualify_lead` builds its record through `let` bindings, so each field
projection is definitionally the corresponding sub-expression; these
lemmas expose that. -/

theorem report_label_def (agent : LeadQualificationAgent) (lead : Lead) :
    (qualify_lead agent lead).lead_quality_label
      = (labelIntentOf agent (qualify_lead agent lead).lead_quality_score).1 := rfl

theorem report_human_def (agent : LeadQualificationAgent) (lead : Lead) :
    (qualify_lead agent lead).human_attention_required
      = (if (qualify_lead agent lead).lead_quality_label = "High"
            || (qualify_lead agent lead).lead_quality_label = "Medium"
         then false else true) := rfl

theorem report_conf_def (agent : LeadQualificationAgent) (lead : Lead) :
    (qualify_lead agent lead).confidence_in_recommendation
      = confidenceOf (qualify_lead agent lead).lead_quality_score := rfl

theorem report_feas_def (agent : LeadQualificationAgent) (lead : Lead) :
    (qualify_lead agent lead).location_feasibility_score
      = compute_location_feasibility lead.location
          (some (pyOrStr (pyOrOpt lead.mode_preference lead.mode) "Unknown")) := rfl

theorem report_score_clamp (agent : LeadQualificationAgent) (lead : Lead) :
    ∃ q, (qualify_lead agent lead).lead_quality_score = clampScore q := ⟨_, rfl⟩

theorem clampScore_bounds (q : Int) : 0 ≤ clampScore q ∧ clampScore q ≤ 100 := by
  unfold clampScore; omega

theorem labelIntentOf_cases (agent : LeadQualificationAgent) (q : Int) :
    (labelIntentOf agent q).1 = "High" ∨ (labelIntentOf agent q).1 = "Medium" ∨
    (labelIntentOf agent q).1 = "Low" ∨ (labelIntentOf agent q).1 = "Invalid" := by
  unfold labelIntentOf; split_ifs <;> simp

theorem labelIntentOf_default (q : Int) :
    ((labelIntentOf defaultAgent q).1 = "High" ↔ 80 ≤ q) ∧
    ((labelIntentOf defaultAgent q).1 = "Medium" ↔ 60 ≤ q ∧ q < 80) ∧
    ((labelIntentOf defaultAgent q).1 = "Low" ↔ 40 ≤ q ∧ q < 60) ∧
    ((labelIntentOf defaultAgent q).1 = "Invalid" ↔ q < 40) := by
  unfold labelIntentOf defaultAgent
  split_ifs with h1 h2 h3 <;> refine ⟨?_, ?_, ?_, ?_⟩ <;> simp_all <;> omega

theorem confidenceOf_eq_round (z : Int) :
    (confidenceOf z : ℤ) = round (|(z : ℚ) - 50| / 50 * 100) := by
  have h1 : ((z : ℚ) - 50) = ((z - 50 : ℤ) : ℚ) := by push_cast; ring
  rw [h1, ← Int.cast_abs, ← Int.cast_natAbs]
  have h2 : (((z - 50).natAbs : ℚ)) / 50 * 100 = ((2 * (z - 50).natAbs : ℕ) : ℚ) := by
    push_cast; ring
  rw [h2, round_natCast]
  simp [confidenceOf]

/-!
## Claim theorems -/

/-- C1: on input `{lead_id:"L1", budget:"₹10000", urgency:"within 2 days",
subjects:["JEE"], location:"Sector 5", mode:"offline"}`, `qualify_lead`
produces quality score 100 (the raw accumulated score being 115 before
clamping), label `High`, intent `High Intent`, recommended next agent
`Tutor Matching Agent`, and confidence 100. -/
theorem qualify_leadL1_end_to_end :
    (feasAdjust
       (complexityAdjust
         (urgencyAdjust
           (budgetAdjust (50, []) (parse_budget (some "₹10000")).2)
           (determine_urgency (some "within 2 days")))
         (assess_subject_complexity ["JEE"]))
       (compute_location_feasibility (some "Sector 5") (some "offline"))).1 = 115 ∧
    (qualify_lead defaultAgent leadL1).lead_quality_score = 100 ∧
    (qualify_lead defaultAgent leadL1).lead_quality_label = "High" ∧
    (qualify_lead defaultAgent leadL1).intent_level = "High Intent" ∧
    (qualify_lead defaultAgent leadL1).recommended_next_agent = "Tutor Matching Agent" ∧
    (qualify_lead defaultAgent leadL1).confidence_in_recommendation = 100 := by
  decide

/-- C2: under the default thresholds (high = 80, medium = 60, low = 40),
the quality label partitions the clamped quality score exactly:
`High ↔ score ≥ 80`, `Medium ↔ 60 ≤ score < 80`, `Low ↔ 40 ≤ score < 60`,
`Invalid ↔ score < 40`, for every input lead. -/
theorem label_partitions_score (lead : Lead) :
    ((qualify_lead defaultAgent lead).lead_quality_label = "High" ↔
       80 ≤ (qualify_lead defaultAgent lead).lead_quality_score) ∧
    ((qualify_lead defaultAgent lead).lead_quality_label = "Medium" ↔
       60 ≤ (qualify_lead defaultAgent lead).lead_quality_score ∧
       (qualify_lead defaultAgent lead).lead_quality_score < 80) ∧
    ((qualify_lead defaultAgent lead).lead_quality_label = "Low" ↔
       40 ≤ (qualify_lead defaultAgent lead).lead_quality_score ∧
       (qualify_lead defaultAgent lead).lead_quality_score < 60) ∧
    ((qualify_lead defaultAgent lead).lead_quality_label = "Invalid" ↔
       (qualify_lead defaultAgent lead).lead_quality_score < 40) := by
  rw [report_label_def]
  exact labelIntentOf_default (qualify_lead defaultAgent lead).lead_quality_score

/-- C3: for every input (and any thresholds), the quality score is an
integer in `[0, 100]` and the confidence equals
`round(|score − 50| / 50 × 100)`, an integer in `[0, 100]`. -/
theorem score_and_confidence_invariant (agent : LeadQualificationAgent) (lead : Lead) :
    0 ≤ (qualify_lead agent lead).lead_quality_score ∧
    (qualify_lead agent lead).lead_quality_score ≤ 100 ∧
    ((qualify_lead agent lead).confidence_in_recommendation : ℤ) =
      round (|((qualify_lead agent lead).lead_quality_score : ℚ) - 50| / 50 * 100) ∧
    (qualify_lead agent lead).confidence_in_recommendation ≤ 100 := by
  obtain ⟨q, hq⟩ := report_score_clamp agent lead
  obtain ⟨hlo, hhi⟩ := clampScore_bounds q
  refine ⟨by omega, by omega, ?_, ?_⟩
  · rw [report_conf_def]
    exact confidenceOf_eq_round (qualify_lead agent lead).lead_quality_score
  · rw [report_conf_def, hq]
    unfold confidenceOf
    omega

/-- C4: for every input, `human_attention_required` holds iff the quality
label of the same report is `Low` or `Invalid`. -/
theorem human_attention_iff_low_or_invalid (agent : LeadQualificationAgent) (lead : Lead) :
    (qualify_lead agent lead).human_attention_required = true ↔
      ((qualify_lead agent lead).lead_quality_label = "Low" ∨
       (qualify_lead agent lead).lead_quality_label = "Invalid") := by
  rw [report_human_def, report_label_def]
  rcases labelIntentOf_cases agent (qualify_lead agent lead).lead_quality_score with
    h | h | h | h <;> rw [h] <;> decide

/-- C5, counterexample: the claim says online mode forces feasibility 100
even when the location is absent, but `_compute_location_feasibility`
tests `if not location` first (line 96), so an absent location with mode
`"online"` scores 50, not 100. -/
theorem online_absent_location_counterexample :
    compute_location_feasibility none (some "online") = 50 ∧
    compute_location_feasibility none (some "online") ≠ 100 := by decide

/-- C5, amended: for every input with a *nonempty* location whose mode
equals `"online"` case-insensitively, the location feasibility score is
100 regardless of the location content; an absent or empty location is
caught earlier and scores 50 even in online mode. -/
theorem online_mode_feasibility (loc m : String) (hloc : loc ≠ "")
    (hm : strLower m = "online") :
    compute_location_feasibility (some loc) (some m) = 100 := by
  have hm' : m ≠ "" := by
    intro he; subst he
    simp [strLower] at hm
  simp [compute_location_feasibility, modeIsOnline, hloc, hm', hm]

theorem online_mode_feasibility_witness :
    compute_location_feasibility (some "Anywhere") (some "Online") = 100 :=
  online_mode_feasibility "Anywhere" "Online" (by decide) (by decide)

/-- C6: urgency classification.  An absent urgency string yields
`Long‑Term`; a leftmost `"<N> hour(s)"` match (case-insensitive) yields
`Immediate` when `N ≤ 48` and `Short‑Term` otherwise, taking priority over
any days match; failing that, a `"<N> day(s)"` match yields `Immediate`
when `N ≤ 2`, `Short‑Term` when `3 ≤ N ≤ 7` and `Long‑Term` when `N > 7`;
with no matching pattern the result is `Long‑Term`. -/
theorem urgency_classification :
    determine_urgency none = "Long‑Term" ∧
    ∀ s : String,
      (∀ n, searchNumUnit hoursPat s.data = some n →
        determine_urgency (some s) = if n ≤ 48 then "Immediate" else "Short‑Term") ∧
      (searchNumUnit hoursPat s.data = none →
        (∀ n, searchNumUnit daysPat s.data = some n →
          determine_urgency (some s) =
            if n ≤ 2 then "Immediate"
            else if n ≤ 7 then "Short‑Term"
            else "Long‑Term") ∧
        (searchNumUnit daysPat s.data = none →
          determine_urgency (some s) = "Long‑Term")) := by
  refine ⟨rfl, fun s => ⟨?_, fun hh => ⟨?_, fun hd => ?_⟩⟩⟩
  · intro n h
    have hs : s ≠ "" := by
      intro he; subst he
      simp [searchNumUnit] at h
    simp [determine_urgency, hs, h]
  · intro n h
    have hs : s ≠ "" := by
      intro he; subst he
      simp [searchNumUnit] at h
    simp [determine_urgency, hs, hh, h]
  · by_cases hs : s = ""
    · subst hs; rfl
    · simp [determine_urgency, hs, hh, hd]

theorem urgency_classification_witness :
    determine_urgency (some "in 30 hours or 10 days") = "Immediate" ∧
    determine_urgency (some "in 5 days") = "Short‑Term" ∧
    determine_urgency (some "next month") = "Long‑Term" := by
  refine ⟨?_, ?_, ?_⟩
  · exact ((urgency_classification.2 "in 30 hours or 10 days").1 30 (by decide)).trans
      (by decide)
  · exact (((urgency_classification.2 "in 5 days").2 (by decide)).1 5 (by decide)).trans
      (by decide)
  · exact ((urgency_classification.2 "next month").2 (by decide)).2 (by decide)

/-- C7: budget parsing.  An absent budget or one with no digit-group token
yields `("Unknown", "Unknown")`; otherwise, with `low`/`high` the min/max
of the extracted comma-stripped integers, the category is `Low` when
`high ≤ 3000`, `Medium` when `3000 < high ≤ 8000`, else `High`, and the
display is `"₹low–₹high"` when they differ and `"₹low"` when equal.
In particular `"₹3,000–₹8,000"` parses to `("₹3000–₹8000", "Medium")`. -/
theorem budget_parsing :
    parse_budget none = ("Unknown", "Unknown") ∧
    (∀ s : String, findNums s = [] → parse_budget (some s) = ("Unknown", "Unknown")) ∧
    (∀ (s n : String) (ns : List String), findNums s = n :: ns →
      parse_budget (some s) =
        (let low := (ns.map numVal).foldl min (numVal n)
         let high := (ns.map numVal).foldl max (numVal n)
         (if low ≠ high then s!"₹{low}–₹{high}" else s!"₹{low}",
          if high ≤ 3000 then "Low" else if high ≤ 8000 then "Medium" else "High"))) ∧
    parse_budget (some "₹3,000–₹8,000") = ("₹3000–₹8000", "Medium") := by
  refine ⟨rfl, ?_, ?_, by decide⟩
  · intro s h
    by_cases hs : s = ""
    · subst hs; rfl
    · simp [parse_budget, hs, h]
  · intro s n ns h
    have hs : s ≠ "" := by
      intro he; subst he
      have h0 : findNums "" = [] := rfl
      rw [h0] at h
      exact List.noConfusion h
    simp [parse_budget, hs, h]

theorem budget_parsing_witness :
    parse_budget (some "no budget yet") = ("Unknown", "Unknown") ∧
    parse_budget (some "around 500 rupees") = ("₹500", "Low") := by
  constructor
  · exact budget_parsing.2.1 "no budget yet" (by decide)
  · exact (budget_parsing.2.2.1 "around 500 rupees" "500" [] (by decide)).trans (by decide)

/-- C8: the aggregator's feasibility adjustment adds 10 with its sentence
when the feasibility score is at least 80, subtracts 5 with its sentence
when the score is at most 60, and leaves score and reasoning untouched
strictly between 60 and 80; exactly 60 takes the penalty branch and
exactly 80 the bonus branch. -/
theorem feasibility_adjustment (sr : Int × List String) (f : Nat) :
    (80 ≤ f → feasAdjust sr f =
      (sr.1 + 10, sr.2 ++ ["Precise location makes home tutoring feasible."])) ∧
    (f ≤ 60 → feasAdjust sr f =
      (sr.1 - 5, sr.2 ++ ["Generic location lowers match confidence."])) ∧
    (60 < f → f < 80 → feasAdjust sr f = sr) ∧
    feasAdjust sr 60 = (sr.1 - 5, sr.2 ++ ["Generic location lowers match confidence."]) ∧
    feasAdjust sr 80 = (sr.1 + 10, sr.2 ++ ["Precise location makes home tutoring feasible."]) := by
  unfold feasAdjust
  refine ⟨?_, ?_, ?_, ?_, ?_⟩ <;> intros <;> split_ifs <;> first | rfl | omega

theorem feasibility_adjustment_witness :
    feasAdjust (50, []) 80 = (60, ["Precise location makes home tutoring feasible."]) ∧
    feasAdjust (50, []) 60 = (45, ["Generic location lowers match confidence."]) ∧
    feasAdjust (50, []) 70 = (50, []) := by
  refine ⟨?_, ?_, ?_⟩
  · exact ((feasibility_adjustment (50, []) 80).1 (by decide)).trans (by decide)
  · exact ((feasibility_adjustment (50, []) 60).2.1 (by decide)).trans (by decide)
  · exact (feasibility_adjustment (50, []) 70).2.2.1 (by decide) (by decide)

/-- C9: subject complexity.  An empty list yields `Unknown`; if any
subject contains (case-insensitively) a high-complexity keyword the
result is `High` — the high scan covers all subjects before the medium
scan, regardless of order; otherwise a medium keyword anywhere yields
`Medium`; otherwise `Low`.  In particular `["Math", "JEE"]` is `High`. -/
theorem subject_complexity_spec :
    assess_subject_complexity [] = "Unknown" ∧
    (∀ subs : List String, subs ≠ [] →
      (∃ sub ∈ subs, ∃ k ∈ high_complexity_keywords, containsCI k sub = true) →
      assess_subject_complexity subs = "High") ∧
    (∀ subs : List String, subs ≠ [] →
      (∀ sub ∈ subs, ∀ k ∈ high_complexity_keywords, containsCI k sub = false) →
      (∃ sub ∈ subs, ∃ k ∈ medium_complexity_keywords, containsCI k sub = true) →
      assess_subject_complexity subs = "Medium") ∧
    (∀ subs : List String, subs ≠ [] →
      (∀ sub ∈ subs, ∀ k ∈ high_complexity_keywords, containsCI k sub = false) →
      (∀ sub ∈ subs, ∀ k ∈ medium_complexity_keywords, containsCI k sub = false) →
      assess_subject_complexity subs = "Low") ∧
    assess_subject_complexity ["Math", "JEE"] = "High" := by
  refine ⟨rfl, ?_, ?_, ?_, by decide⟩
  · intro subs hne hex
    have h0 : subs.isEmpty = false := by
      cases subs
      · exact absurd rfl hne
      · rfl
    have hany : subs.any (fun sub => high_complexity_keywords.any
        (fun k => containsCI k sub)) = true := by
      obtain ⟨sub, hsub, k, hk, hck⟩ := hex
      exact List.any_eq_true.mpr ⟨sub, hsub, List.any_eq_true.mpr ⟨k, hk, hck⟩⟩
    simp [assess_subject_complexity, h0, hany]
  · intro subs hne hno hex
    have h0 : subs.isEmpty = false := by
      cases subs
      · exact absurd rfl hne
      · rfl
    have hanyh : subs.any (fun sub => high_complexity_keywords.any
        (fun k => containsCI k sub)) = false := by
      rw [Bool.eq_false_iff]
      intro hcontra
      obtain ⟨sub, hsub, hsubany⟩ := List.any_eq_true.mp hcontra
      obtain ⟨k, hk, hck⟩ := List.any_eq_true.mp hsubany
      rw [hno sub hsub k hk] at hck
      exact Bool.noConfusion hck
    have hanym : subs.any (fun sub => medium_complexity_keywords.any
        (fun k => containsCI k sub)) = true := by
      obtain ⟨sub, hsub, k, hk, hck⟩ := hex
      exact List.any_eq_true.mpr ⟨sub, hsub, List.any_eq_true.mpr ⟨k, hk, hck⟩⟩
    simp [assess_subject_complexity, h0, hanyh, hanym]
  · intro subs hne hnoh hnom
    have h0 : subs.isEmpty = false := by
      cases subs
      · exact absurd rfl hne
      · rfl
    have hanyh : subs.any (fun sub => high_complexity_keywords.any
        (fun k => containsCI k sub)) = false := by
      rw [Bool.eq_false_iff]
      intro hcontra
      obtain ⟨sub, hsub, hsubany⟩ := List.any_eq_true.mp hcontra
      obtain ⟨k, hk, hck⟩ := List.any_eq_true.mp hsubany
      rw [hnoh sub hsub k hk] at hck
      exact Bool.noConfusion hck
    have hanym : subs.any (fun sub => medium_complexity_keywords.any
        (fun k => containsCI k sub)) = false := by
      rw [Bool.eq_false_iff]
      intro hcontra
      obtain ⟨sub, hsub, hsubany⟩ := List.any_eq_true.mp hcontra
      obtain ⟨k, hk, hck⟩ := List.any_eq_true.mp hsubany
      rw [hnom sub hsub k hk] at hck
      exact Bool.noConfusion hck
    simp [assess_subject_complexity, h0, hanyh, hanym]

theorem subject_complexity_witness :
    assess_subject_complexity ["Chemistry", "NEET"] = "High" ∧
    assess_subject_complexity ["Art", "Math"] = "Medium" ∧
    assess_subject_complexity ["Art", "History"] = "Low" := by
  refine ⟨?_, ?_, ?_⟩
  · exact subject_complexity_spec.2.1 ["Chemistry", "NEET"] (by decide)
      ⟨"NEET", by decide, "NEET", by decide, by decide⟩
  · exact subject_complexity_spec.2.2.1 ["Art", "Math"] (by decide) (by decide)
      ⟨"Math", by decide, "Math", by decide, by decide⟩
  · exact subject_complexity_spec.2.2.2.1 ["Art", "History"] (by decide) (by decide)
      (by decide)

/-- C10: the location feasibility score is always one of 50, 60, 80, 100;
hence the aggregator's neutral zone (strictly between 60 and 80) is never
reached, and every qualification takes either the +10 bonus branch
(score ≥ 80) or the −5 penalty branch (score ≤ 60). -/
theorem feasibility_value_range :
    (∀ location mode : Option String,
      compute_location_feasibility location mode = 50 ∨
      compute_location_feasibility location mode = 60 ∨
      compute_location_feasibility location mode = 80 ∨
      compute_location_feasibility location mode = 100) ∧
    (∀ (agent : LeadQualificationAgent) (lead : Lead),
      (qualify_lead agent lead).location_feasibility_score ≤ 60 ∨
      80 ≤ (qualify_lead agent lead).location_feasibility_score) := by
  have hval : ∀ location mode : Option String,
      compute_location_feasibility location mode = 50 ∨
      compute_location_feasibility location mode = 60 ∨
      compute_location_feasibility location mode = 80 ∨
      compute_location_feasibility location mode = 100 := by
    intro location mode
    rcases location with _ | loc
    · simp [compute_location_feasibility]
    · simp only [compute_location_feasibility]
      by_cases h1 : loc = ""
      · simp [h1]
      · rw [if_neg h1]
        cases hb : modeIsOnline mode
        · rw [if_neg (by simp [hb])]
          split_ifs <;> simp
        · rw [if_pos (by simp [hb])]
          simp
  refine ⟨hval, fun agent lead => ?_⟩
  rw [report_feas_def]
  rcases hval lead.location
      (some (pyOrStr (pyOrOpt lead.mode_preference lead.mode) "Unknown")) with
    h | h | h | h <;> omega

end NxTutors
